import Mathlib

/-!
Verification development for the `orderops` repository.

The Python sources are shallowly embedded as Lean definitions:
  * `rules.py`      → `can_cancel`, `is_return_eligible`, `can_change_address`
  * `state_store.py`→ `Order`, `Store`, `seed_demo`, `Store.undo_last`, mutators
  * `tools.py`      → `cancel_order`, `start_return`, `change_address`
  * `app.py`        → `NEG_CANCEL_PATTERNS` matching, `fallback_intent`,
                      `ai_plan`, `compute_avg_delivery_days`

Modelling conventions:
  * Python `dict` order records become a `structure` with the same field names;
    the presentation-only `image_url` field (an inline SVG data URI derived
    from the first item name) is omitted — no business logic reads it.
  * The store's `orders` dict becomes an insertion-ordered association list.
  * Wall-clock time (`time.time()`) is passed explicitly as an `Int` argument
    `now`; `date.today()` is passed explicitly as a `Date` argument `today`.
  * `datetime.fromisoformat(...).date()` is modelled for the `YYYY-MM-DD`
    strings this program produces and stores; any other string fails to
    parse, matching the fail-closed `try/except` use sites.
  * Python `timedelta(days=k)` arithmetic on dates is modelled by iterating
    a calendar successor/predecessor on (year, month, day) triples with the
    Gregorian leap rule, which agrees with CPython's ordinal arithmetic on
    the valid-date range.
-/

/-- A calendar date, as CPython's `datetime.date` triple. -/
structure Date where
  year : Nat
  month : Nat
  day : Nat
deriving DecidableEq, Repr

/-- Gregorian leap-year rule (CPython `calendar.isleap`). -/
def isLeap (y : Nat) : Bool :=
  y % 4 = 0 && (y % 100 ≠ 0 || y % 400 = 0)

/-- Days in a month (CPython `calendar.monthrange` day count). -/
def daysInMonth (y m : Nat) : Nat :=
  if m = 2 then (if isLeap y then 29 else 28)
  else if m = 4 ∨ m = 6 ∨ m = 9 ∨ m = 11 then 30
  else 31

/-- A valid `datetime.date` triple (CPython also caps year at 9999; the cap
is stated separately where it matters). -/
def DateValid (d : Date) : Prop :=
  1 ≤ d.year ∧ 1 ≤ d.month ∧ d.month ≤ 12 ∧ 1 ≤ d.day ∧ d.day ≤ daysInMonth d.year d.month

instance (d : Date) : Decidable (DateValid d) := by
  unfold DateValid; infer_instance

/-- Calendar successor (`date + timedelta(days=1)`). -/
def nextDay (d : Date) : Date :=
  if d.day < daysInMonth d.year d.month then ⟨d.year, d.month, d.day + 1⟩
  else if d.month < 12 then ⟨d.year, d.month + 1, 1⟩
  else ⟨d.year + 1, 1, 1⟩

/-- Calendar predecessor (`date - timedelta(days=1)`). -/
def prevDay (d : Date) : Date :=
  if 1 < d.day then ⟨d.year, d.month, d.day - 1⟩
  else if 1 < d.month then ⟨d.year, d.month - 1, daysInMonth d.year (d.month - 1)⟩
  else ⟨d.year - 1, 12, 31⟩

/-- `date + timedelta(days=k)`. -/
def addDays : Date → Nat → Date
  | d, 0 => d
  | d, k + 1 => addDays (nextDay d) k

/-- `date - timedelta(days=k)`. -/
def subDays : Date → Nat → Date
  | d, 0 => d
  | d, k + 1 => prevDay (subDays d k)

/-- Lexicographic date comparison, as CPython compares `date` objects. -/
def dateLe (a b : Date) : Bool :=
  if a.year ≠ b.year then decide (a.year < b.year)
  else if a.month ≠ b.month then decide (a.month < b.month)
  else decide (a.day ≤ b.day)

/-- Strict lexicographic date comparison. -/
def dateLt (a b : Date) : Bool :=
  if a.year ≠ b.year then decide (a.year < b.year)
  else if a.month ≠ b.month then decide (a.month < b.month)
  else decide (a.day < b.day)

/-- Rank of a date in the proleptic Gregorian calendar (days since an epoch,
Hinnant's civil-from-days inverse); used only to take differences, as
CPython's `date.toordinal` subtraction does in `(delivered - ship).days`. -/
def dateOrdinal (dt : Date) : Nat :=
  let y := if dt.month ≤ 2 then dt.year - 1 else dt.year
  let era := y / 400
  let yoe := y % 400
  let mp := (dt.month + 9) % 12
  let doy := (153 * mp + 2) / 5 + dt.day - 1
  let doe := yoe * 365 + yoe / 4 - yoe / 100 + doy
  era * 146097 + doe

/-- `(b - a).days` for dates. -/
def dateDiffDays (b a : Date) : Int :=
  (dateOrdinal b : Int) - (dateOrdinal a : Int)

/-- Decimal digit character. -/
def digitChar (k : Nat) : Char := Char.ofNat (48 + k % 10)

/-- Numeric value of a digit character. -/
def digitVal (c : Char) : Nat := c.toNat - 48

/-- Zero-padded four-digit rendering. -/
def pad4 (n : Nat) : List Char :=
  [digitChar (n / 1000 % 10), digitChar (n / 100 % 10), digitChar (n / 10 % 10), digitChar (n % 10)]

/-- Zero-padded two-digit rendering. -/
def pad2 (n : Nat) : List Char :=
  [digitChar (n / 10 % 10), digitChar (n % 10)]

/-- `date.isoformat()`: `YYYY-MM-DD`. -/
def isoDate (d : Date) : String :=
  String.mk (pad4 d.year ++ '-' :: pad2 d.month ++ '-' :: pad2 d.day)

/-- `datetime.fromisoformat(s).date()` on the `YYYY-MM-DD` strings this
program stores; anything else fails (models the surrounding `try/except`). -/
def parseDate (s : String) : Option Date :=
  match s.data with
  | [y1, y2, y3, y4, h1, m1, m2, h2, d1, d2] =>
    if y1.isDigit && y2.isDigit && y3.isDigit && y4.isDigit && h1 == '-' &&
       m1.isDigit && m2.isDigit && h2 == '-' && d1.isDigit && d2.isDigit then
      let y := digitVal y1 * 1000 + digitVal y2 * 100 + digitVal y3 * 10 + digitVal y4
      let m := digitVal m1 * 10 + digitVal m2
      let d := digitVal d1 * 10 + digitVal d2
      if 1 ≤ y ∧ 1 ≤ m ∧ m ≤ 12 ∧ 1 ≤ d ∧ d ≤ daysInMonth y m then some ⟨y, m, d⟩
      else none
    else none
  | _ => none

/-- One order record (`_make_order` in `state_store.py`); the derived
`image_url` presentation field is omitted (nothing reads it). -/
structure Order where
  order_id : String
  status : String
  items : List String
  phone : String
  courier : Option String
  tracking_id : Option String
  ship_date : Option String
  est_delivery_date : Option String
  delivered_date : Option String
  return_eligible_until : Option String
  address_line : String
  order_date : String
  refund_status : Option String
deriving DecidableEq, Repr

/-- One undo-log record (`Store.push_action` entry dict). -/
structure ActionEntry where
  id : Nat
  type : String
  oid : String
  ts : Int
  before : Option Order
  after : Option Order
deriving DecidableEq, Repr

/-- Association-list lookup (Python `dict.get`). -/
def alookup : List (String × Order) → String → Option Order
  | [], _ => none
  | (k, v) :: t, key => if k = key then some v else alookup t key

/-- Map a function over the value at a key, if present (used by the Store's
conditional `if oid in self.orders` mutators). -/
def aupdate (f : Order → Order) : List (String × Order) → String → List (String × Order)
  | [], _ => []
  | (k, v) :: t, key => if k = key then (k, f v) :: t else (k, v) :: aupdate f t key

/-- Python `dict` assignment `d[k] = v`: replace in place, else append. -/
def aset : List (String × Order) → String → Order → List (String × Order)
  | [], key, v => [(key, v)]
  | (k, w) :: t, key, v => if k = key then (k, v) :: t else (k, w) :: aset t key v

/-- The in-memory store (`state_store.Store`), minus its seed (attached in
`Store.init` below). -/
structure Store where
  orders : List (String × Order)
  actions : List ActionEntry
  last_action : Option ActionEntry
  action_seq : Nat
  undo_grace_seconds : Int
deriving DecidableEq, Repr

/-- `Store.get_order`. -/
def getOrder (s : Store) (oid : String) : Option Order := alookup s.orders oid

/-- `Store.snapshot_order` (deep copy is value semantics here). -/
def snapshotOrder (s : Store) (oid : String) : Option Order := getOrder s oid

/-- `Store.push_action`: append an entry, bump the sequence, replace the
last-action pointer; `now` is the entry's `time.time()` stamp. -/
def pushAction (s : Store) (ty oid : String) (before after : Option Order) (now : Int) : Store :=
  let entry : ActionEntry := ⟨s.action_seq + 1, ty, oid, now, before, after⟩
  { s with action_seq := s.action_seq + 1, actions := s.actions ++ [entry],
           last_action := some entry }

/-- `Store.can_undo` at wall-clock `now`. -/
def canUndo (s : Store) (now : Int) : Bool :=
  match s.last_action with
  | none => false
  | some a => decide (now - a.ts ≤ s.undo_grace_seconds)

/-- `Store.undo_last` at wall-clock `now`; returns (success, message) and the
resulting store. -/
def undoLast (s : Store) (now : Int) : Bool × String × Store :=
  match s.last_action with
  | none => (false, "Undo window has expired.", s)
  | some act =>
    if now - act.ts ≤ s.undo_grace_seconds then
      match act.before with
      | none => (false, "Nothing to undo.", { s with last_action := none })
      | some b =>
        if act.oid = "" then (false, "Nothing to undo.", { s with last_action := none })
        else
          match alookup s.orders act.oid with
          | none => (false, "Nothing to undo.", { s with last_action := none })
          | some _ =>
            (true, "Reverted **" ++ act.type ++ "** on **" ++ act.oid ++ "**.",
             { s with orders := aset s.orders act.oid b, last_action := none })
    else (false, "Undo window has expired.", s)

/-- `Store.set_status`. -/
def setStatus (s : Store) (oid new_status : String) : Store :=
  { s with orders := aupdate (fun o => { o with status := new_status }) s.orders oid }

/-- `Store.set_address`. -/
def setAddress (s : Store) (oid new_addr : String) : Store :=
  { s with orders := aupdate (fun o => { o with address_line := new_addr }) s.orders oid }

/-- `Store.set_refund_status`. -/
def setRefundStatus (s : Store) (oid status : String) : Store :=
  { s with orders := aupdate (fun o => { o with refund_status := status }) s.orders oid }

/-- `Tools.cancel_order` (tools.py); `now` is the `time.time()` stamp used
when logging the action. -/
def cancel_order (s : Store) (oid : String) (now : Int) : Bool × String × Store :=
  match getOrder s oid with
  | none => (false, "I couldn\x27t find " ++ oid ++ ".", s)
  | some o =>
    if o.status = "Processing" then
      let before := snapshotOrder s oid
      let s1 := setStatus s oid "Cancelled"
      let after := snapshotOrder s1 oid
      let s2 := pushAction s1 "cancel" oid before after now
      (true, "**" ++ oid ++ "** has been **cancelled**.", s2)
    else if o.status = "Shipped" ∨ o.status = "Out for Delivery" then
      (false, "**" ++ oid ++ "** is already " ++ o.status ++ ", so I can’t cancel it.", s)
    else if o.status = "Delivered" ∨ o.status = "Return Initiated" ∨
            o.status = "Refunded" ∨ o.status = "Cancelled" then
      (false, "**" ++ oid ++ "** is " ++ o.status ++ ", so cancellation isn’t applicable.", s)
    else (false, "I can’t cancel **" ++ oid ++ "** at the current stage.", s)

/-- `Tools.start_return` (tools.py); `today` is `date.today()`, `now` the
`time.time()` stamp for logging. -/
def start_return (s : Store) (oid : String) (today : Date) (now : Int) : Bool × String × Store :=
  match getOrder s oid with
  | none => (false, "I couldn\x27t find " ++ oid ++ ".", s)
  | some o =>
    if o.status = "Delivered" then
      let expired :=
        match o.return_eligible_until with
        | none => false
        | some r =>
          if r = "" then false
          else match parseDate r with
            | none => false
            | some due => dateLt due today
      if expired then
        (false, "Return window has expired for **" ++ oid ++ "**.", s)
      else
        let before := snapshotOrder s oid
        let s1 := setStatus s oid "Return Initiated"
        let s2 := setRefundStatus s1 oid "Pending Pickup"
        let after := snapshotOrder s2 oid
        let s3 := pushAction s2 "start_return" oid before after now
        (true, "Return initiated for **" ++ oid ++ "**. We’ll share pickup details shortly.", s3)
    else (false, "**" ++ oid ++ "** isn’t delivered yet, so return can’t be started.", s)

/-- `Tools.change_address` (tools.py). -/
def change_address (s : Store) (oid new_addr : String) (now : Int) : Bool × String × Store :=
  match getOrder s oid with
  | none => (false, "I couldn\x27t find " ++ oid ++ ".", s)
  | some o =>
    if o.status = "Processing" then
      let before := snapshotOrder s oid
      let s1 := setAddress s oid new_addr
      let after := snapshotOrder s1 oid
      let s2 := pushAction s1 "change_address" oid before after now
      (true, "Address updated for **" ++ oid ++ "**.", s2)
    else (false, "**" ++ oid ++ "** is " ++ o.status ++ ", so I can’t change the address.", s)

/-- `rules.can_cancel`. -/
def can_cancel (o : Option Order) : Bool :=
  match o with
  | none => false
  | some o => o.status = "Processing"

/-- `rules.is_return_eligible`; `today` is the (explicit) `today` argument. -/
def is_return_eligible (o : Option Order) (today : Date) : Bool :=
  match o with
  | none => false
  | some o =>
    if ¬ (o.status = "Delivered" ∨ o.status = "Return Initiated") then false
    else match o.return_eligible_until with
    | none => false
    | some due =>
      if due = "" then false
      else match parseDate due with
      | none => false
      | some due_date => dateLe today due_date

/-- `rules.can_change_address`. -/
def can_change_address (o : Option Order) : Bool :=
  match o with
  | none => false
  | some o => o.status = "Processing"

/-- Word character for the regex `\b` boundary (`[a-zA-Z0-9_]`; the inputs
are ASCII). -/
def isWordChar (c : Char) : Bool := c.isAlphanum || c == '_'

/-- Whitespace for the regex `\s`. -/
def isSpaceChar (c : Char) : Bool :=
  c == ' ' || c == '\t' || c == '\n' || c == '\r' || c == '\x0b' || c == '\x0c'

/-- Token of the (tiny) pattern language covering `NEG_CANCEL_PATTERNS`:
a literal character, `\s+`, an optional apostrophe (`'?`), or `\b`. -/
inductive Tok where
  | lit (c : Char)
  | ws
  | optApos
  | wb
deriving DecidableEq, Repr

/-- Literal characters of a phrase as pattern tokens. -/
def strToks (s : String) : List Tok := s.data.map Tok.lit

/-- Match a token list at the start of `s`; `prevW` says whether the
character just before `s` is a word character (for `\b`).  `\s+` is consumed
greedily, which is exact here because every `\s+` in the patterns is
followed by a letter. -/
def matchToks : List Tok → Bool → List Char → Bool
  | [], _, _ => true
  | Tok.wb :: ts, prevW, s =>
    let nextW := match s with | c :: _ => isWordChar c | [] => false
    (prevW != nextW) && matchToks ts prevW s
  | Tok.lit c :: ts, _, s =>
    match s with
    | [] => false
    | d :: t => d == c && matchToks ts (isWordChar c) t
  | Tok.ws :: ts, _, s =>
    match s with
    | [] => false
    | d :: t => isSpaceChar d && matchToks ts false (t.dropWhile isSpaceChar)
  | Tok.optApos :: ts, prevW, s =>
    match s with
    | [] => matchToks ts prevW []
    | d :: t =>
      if d = Char.ofNat 39 then matchToks ts false t || matchToks ts prevW (d :: t)
      else matchToks ts prevW (d :: t)

/-- `re.search`: try the pattern at every position. -/
def searchToks (p : List Tok) : Bool → List Char → Bool
  | prevW, s =>
    matchToks p prevW s ||
      match s with
      | [] => false
      | c :: t => searchToks p (isWordChar c) t

/-- `NEG_CANCEL_PATTERNS` from app.py, compiled to the token language.
`apos` is the ASCII apostrophe of `don'?t` / `isn'?t`. -/
def NEG_CANCEL_PATTERNS : List (List Tok) :=
  let apos := Tok.optApos
  [ [Tok.wb] ++ strToks "no need to" ++ [Tok.ws] ++ strToks "cancel" ++ [Tok.wb],
    [Tok.wb] ++ strToks "don" ++ [apos] ++ strToks "t" ++ [Tok.ws] ++ strToks "cancel" ++ [Tok.wb],
    [Tok.wb] ++ strToks "do" ++ [Tok.ws] ++ strToks "not" ++ [Tok.ws] ++ strToks "cancel" ++ [Tok.wb],
    [Tok.wb] ++ strToks "no" ++ [Tok.ws] ++ strToks "cancel" ++ [Tok.wb],
    [Tok.wb] ++ strToks "not" ++ [Tok.ws] ++ strToks "cancel" ++ [Tok.wb],
    [Tok.wb] ++ strToks "never" ++ [Tok.ws] ++ strToks "cancel" ++ [Tok.wb],
    [Tok.wb] ++ strToks "keep" ++ [Tok.ws] ++ strToks "the" ++ [Tok.ws] ++ strToks "order" ++ [Tok.wb],
    [Tok.wb] ++ strToks "i" ++ [Tok.ws] ++ strToks "want" ++ [Tok.ws] ++ strToks "the" ++ [Tok.ws] ++ strToks "order" ++ [Tok.wb],
    [Tok.wb] ++ strToks "cancel" ++ [Tok.ws] ++ strToks "isn" ++ [apos] ++ strToks "t" ++ [Tok.ws] ++ strToks "needed" ++ [Tok.wb] ]

/-- `str.lower()` (ASCII inputs). -/
def lowerStr (s : String) : String := String.mk (s.data.map Char.toLower)

/-- `_neg_cancel` from app.py. -/
def neg_cancel (text : String) : Bool :=
  NEG_CANCEL_PATTERNS.any (fun p => searchToks p false (lowerStr text).data)

/-- Python `needle in haystack` substring test on char lists. -/
def subList (hay needle : List Char) : Bool :=
  needle.isPrefixOf hay ||
    match hay with
    | [] => false
    | _ :: t => subList t needle

/-- Python `needle in haystack` on strings. -/
def strIn (needle hay : String) : Bool := subList hay.data needle.data

/-- `_fallback_intent` from app.py. -/
def fallback_intent (t : String) : String :=
  let tl := lowerStr t
  if neg_cancel tl then "keep_order"
  else if ["where", "status", "track", "eta"].any (fun w => strIn w tl) then "track"
  else if strIn "cancel" tl then "cancel"
  else if strIn "return" tl && !strIn "status" tl then "start_return"
  else if strIn "refund" tl then "refund_policy_or_status"
  else if ["address", "change address", "update address"].any (fun w => strIn w tl) then "change_address"
  else if ["orders", "my orders", "recent orders", "list my orders"].any (fun w => strIn w tl) then "list_orders"
  else if ["so much time", "so long", "taking so long", "delay", "delayed"].any (fun w => strIn w tl) then "delay_reason"
  else if strIn "average" tl && strIn "time" tl then "avg_time"
  else "general_question"

/-- The JSON object a model-backed planner may return, restricted to the
schema fields `ai_plan` touches; `none` marks an absent key.  (Fields of the
wrong JSON type are outside the modelled space.) -/
structure PlanDict where
  intent : Option String := none
  need_web : Option Bool := none
  target_order_id : Option (Option String) := none
  item_name : Option (Option String) := none
  address_text : Option (Option String) := none
  ask_clarify : Option Bool := none
  clarifying_question : Option (Option String) := none
  actions : Option (List String) := none
  web_queries : Option (List String) := none
  notes : Option String := none
deriving DecidableEq, Repr

/-- The fully defaulted plan `ai_plan` returns. -/
structure Plan where
  intent : String
  need_web : Bool
  target_order_id : Option String
  item_name : Option String
  address_text : Option String
  ask_clarify : Bool
  clarifying_question : Option String
  actions : List String
  web_queries : List String
  notes : String
deriving DecidableEq, Repr

/-- What the language-model call produced: no usable client, no parseable
JSON object (covers a raised request error, a reply without braces, and
invalid JSON — all of which leave `plan = {}`), or a parsed object. -/
inductive ModelOut where
  | noClient
  | noParse
  | parsed (p : PlanDict)
deriving DecidableEq, Repr

/-- The neg-cancel override and `setdefault` tail of `ai_plan` (app.py
lines 71-79). -/
def finalizePlan (user_text : String) (active_oid : Option String) (p : PlanDict) : Plan :=
  let p :=
    if neg_cancel user_text then
      let l := p.actions.getD []
      { p with intent := some "keep_order",
               actions := some (if l.contains "general_chat" then l else "general_chat" :: l) }
    else p
  { intent := p.intent.getD (fallback_intent user_text),
    need_web := p.need_web.getD false,
    target_order_id := (p.target_order_id.getD active_oid),
    item_name := p.item_name.getD none,
    address_text := p.address_text.getD none,
    ask_clarify := p.ask_clarify.getD false,
    clarifying_question := p.clarifying_question.getD none,
    actions := p.actions.getD ["general_chat"],
    web_queries := p.web_queries.getD [],
    notes := p.notes.getD "ok" }

/-- `ai_plan` from app.py; the third argument (`has_orders`) only feeds the
model payload, and `m` stands for the model call's outcome. -/
def ai_plan (user_text : String) (active_oid : Option String) (_has_orders : Bool)
    (m : ModelOut) : Plan :=
  match m with
  | ModelOut.noClient =>
    { intent := fallback_intent user_text, need_web := false, target_order_id := active_oid,
      item_name := none, address_text := none, ask_clarify := false,
      clarifying_question := none, actions := ["general_chat"], web_queries := [],
      notes := "fallback" }
  | ModelOut.noParse => finalizePlan user_text active_oid {}
  | ModelOut.parsed p => finalizePlan user_text active_oid p

/-- `_parse_date` from app.py. -/
def parse_date_opt (d : Option String) : Option Date :=
  match d with
  | none => none
  | some s => if s = "" then none else parseDate s

/-- Python string-option truthiness (`if item`, `if courier`). -/
def optTruthy (x : Option String) : Bool :=
  match x with
  | none => false
  | some s => s ≠ ""

/-- `compute_avg_delivery_days` from app.py: (average, sample count). -/
def compute_avg_delivery_days (s : Store) (item courier : Option String) :
    Option ℚ × Nat :=
  let days : List Int := s.orders.filterMap (fun p =>
    let o := p.2
    if o.status ≠ "Delivered" then none
    else if optTruthy item && !(o.items.contains (item.getD "")) then none
    else if optTruthy courier && !(o.courier == courier) then none
    else
      match parse_date_opt o.ship_date, parse_date_opt o.delivered_date with
      | some ship, some delivered =>
        if dateLe ship delivered then some (dateDiffDays delivered ship) else none
      | _, _ => none)
  if days.isEmpty then (none, 0)
  else (some ((days.foldl (· + ·) 0 : Int) / (days.length : ℚ)), days.length)

/-- `_seed_demo` from state_store.py: the nine demo orders, built from
`date.today()` (passed here as `today`). -/
def seed_demo (today : Date) (phone : String) : List (String × Order) :=
  [ ("ORD10071", ⟨"ORD10071", "Delivered", ["Wireless Earbuds"], phone,
      some "BlueDart", some "BDX81234",
      some (isoDate (subDays today 7)), some (isoDate (subDays today 3)),
      some (isoDate (subDays today 3)), some (isoDate (addDays today 7)),
      "12 Park Lane, Mumbai", isoDate (subDays today 10), some "Completed"⟩),
    ("ORD10072", ⟨"ORD10072", "Shipped", ["Smartwatch Series X"], phone,
      some "Delhivery", some "DLV93811",
      some (isoDate (subDays today 2)), some (isoDate (addDays today 2)),
      none, none, "221B Baker Street, Delhi", isoDate (subDays today 3), none⟩),
    ("ORD10073", ⟨"ORD10073", "Out for Delivery", ["Gaming Mouse Pro"], phone,
      some "Ekart", some "EKT11229",
      some (isoDate (subDays today 3)), some (isoDate today),
      none, none, "Hitech City, Hyderabad", isoDate (subDays today 4), none⟩),
    ("ORD10074", ⟨"ORD10074", "Processing", ["Bluetooth Speaker Mini"], phone,
      none, none, none, some (isoDate (addDays today 4)),
      none, none, "MG Road, Bengaluru", isoDate (subDays today 1), none⟩),
    ("ORD10075", ⟨"ORD10075", "Return Initiated", ["Running Shoes 9"], phone,
      some "BlueDart", some "BDX84544",
      some (isoDate (subDays today 9)), some (isoDate (subDays today 5)),
      some (isoDate (subDays today 4)), some (isoDate (addDays today 6)),
      "Sector 18, Noida", isoDate (subDays today 12), some "Pending Pickup"⟩),
    ("ORD10076", ⟨"ORD10076", "Refunded", ["Phone Case Clear"], phone,
      some "Ekart", some "EKT22001",
      some (isoDate (subDays today 14)), some (isoDate (subDays today 10)),
      some (isoDate (subDays today 9)), some (isoDate (subDays today 2)),
      "Baner, Pune", isoDate (subDays today 16), some "Completed"⟩),
    ("ORD10077", ⟨"ORD10077", "Delivered", ["Laptop Sleeve 14 inch"], phone,
      some "Delhivery", some "DLV22881",
      some (isoDate (subDays today 6)), some (isoDate (subDays today 2)),
      some (isoDate (subDays today 2)), some (isoDate (addDays today 8)),
      "Salt Lake, Kolkata", isoDate (subDays today 8), none⟩),
    ("ORD10078", ⟨"ORD10078", "Processing", ["USB-C Cable 2m"], phone,
      none, none, none, some (isoDate (addDays today 3)),
      none, none, "Anna Nagar, Chennai", isoDate today, none⟩),
    ("ORD10079", ⟨"ORD10079", "Shipped", ["Mechanical Keyboard TKL"], phone,
      some "BlueDart", some "BDX99901",
      some (isoDate (subDays today 1)), some (isoDate (addDays today 3)),
      none, none, "Navi Mumbai", isoDate (subDays today 2), none⟩) ]

/-- `Store.__init__`: the freshly seeded store. -/
def Store.init (today : Date) : Store :=
  { orders := seed_demo today "9876543210", actions := [], last_action := none,
    action_seq := 0, undo_grace_seconds := 300 }

/-- Looking a key up after updating it maps the stored value. -/
theorem alookup_aupdate_self (f : Order → Order) (l : List (String × Order)) (k : String) :
    alookup (aupdate f l k) k = (alookup l k).map f := by
  induction l with
  | nil => rfl
  | cons a t ih =>
    obtain ⟨a1, a2⟩ := a
    by_cases h : a1 = k <;> simp [aupdate, alookup, h, ih]

/-- Looking a key up after assigning it yields the assigned value. -/
theorem alookup_aset_self (l : List (String × Order)) (k : String) (v : Order) :
    alookup (aset l k v) k = some v := by
  induction l with
  | nil => simp [aset, alookup]
  | cons a t ih =>
    obtain ⟨a1, a2⟩ := a
    by_cases h : a1 = k <;> simp [aset, alookup, h, ih]

/-- Concrete orders and a concrete store for witnesses. -/
def sampleProcessing : Order :=
  ⟨"ORD10074", "Processing", ["Bluetooth Speaker Mini"], "9876543210", none, none,
   none, some "2026-10-16", none, none, "MG Road, Bengaluru", "2026-10-11", none⟩

def sampleDelivered : Order :=
  ⟨"ORD10071", "Delivered", ["Wireless Earbuds"], "9876543210", some "BlueDart",
   some "BDX81234", some "2026-10-05", some "2026-10-09", some "2026-10-09",
   some "2026-10-19", "12 Park Lane, Mumbai", "2026-10-02", some "Completed"⟩

def sampleStore : Store :=
  ⟨[("ORD10074", sampleProcessing), ("ORD10071", sampleDelivered)], [], none, 0, 300⟩

/-- C1: cancelling a Processing order and undoing within the 300-second grace
window restores the exact pre-cancel order record, returns success, and
clears the last-action pointer. -/
theorem claim_C1 (s : Store) (oid : String) (o : Order) (t1 t2 : Int)
    (ho : getOrder s oid = some o) (hst : o.status = "Processing") (hoid : oid ≠ "")
    (hgrace : s.undo_grace_seconds = 300) (ht : t2 - t1 ≤ 300) :
    (undoLast (cancel_order s oid t1).2.2 t2).1 = true ∧
    getOrder (undoLast (cancel_order s oid t1).2.2 t2).2.2 oid = some o ∧
    (undoLast (cancel_order s oid t1).2.2 t2).2.2.last_action = none := by
  have hc : (cancel_order s oid t1).2.2 =
      pushAction (setStatus s oid "Cancelled") "cancel" oid (some o)
        (snapshotOrder (setStatus s oid "Cancelled") oid) t1 := by
    unfold cancel_order
    rw [ho]
    simp [hst, snapshotOrder, ho]
  rw [hc]
  unfold undoLast pushAction setStatus
  simp only [hgrace]
  rw [if_pos ht]
  simp only [snapshotOrder, getOrder]
  rw [if_neg hoid]
  have hl : alookup (aupdate (fun o => { o with status := "Cancelled" }) s.orders oid) oid
      = some { o with status := "Cancelled" } := by
    rw [alookup_aupdate_self]
    unfold getOrder at ho
    rw [ho]
    rfl
  rw [hl]
  refine ⟨rfl, ?_, rfl⟩
  exact alookup_aset_self _ _ _

/-- C3: whenever `cancel_order`, `start_return` or `change_address` reports
failure, the store is left completely unchanged (orders, address lines, and
the action log included). -/
theorem claim_C3 (s : Store) (oid addr : String) (today : Date) (now : Int) :
    ((cancel_order s oid now).1 = false → (cancel_order s oid now).2.2 = s) ∧
    ((start_return s oid today now).1 = false → (start_return s oid today now).2.2 = s) ∧
    ((change_address s oid addr now).1 = false → (change_address s oid addr now).2.2 = s) := by
  refine ⟨?_, ?_, ?_⟩
  · unfold cancel_order
    cases hg : getOrder s oid with
    | none => simp
    | some o =>
      dsimp only
      split_ifs <;> simp
  · unfold start_return
    cases hg : getOrder s oid with
    | none => simp
    | some o =>
      dsimp only
      split_ifs <;> simp
  · unfold change_address
    cases hg : getOrder s oid with
    | none => simp
    | some o =>
      dsimp only
      split_ifs <;> simp

theorem undoLast_success_clears (s : Store) (now : Int) (h : (undoLast s now).1 = true) :
    (undoLast s now).2.2.last_action = none := by
  unfold undoLast at h ⊢
  cases hl : s.last_action with
  | none => rw [hl] at h; simp at h
  | some act =>
    rw [hl] at h
    dsimp only at h ⊢
    by_cases hts : now - act.ts ≤ s.undo_grace_seconds
    · rw [if_pos hts] at h ⊢
      cases hb : act.before with
      | none => rfl
      | some b =>
        rw [hb] at h
        dsimp only at h ⊢
        by_cases hoid : act.oid = ""
        · rw [if_pos hoid]
        · rw [if_neg hoid] at h ⊢
          cases ha : alookup s.orders act.oid with
          | none => rfl
          | some w => rfl
    · rw [if_neg hts] at h; simp at h

theorem undoLast_none (s : Store) (now : Int) (h : s.last_action = none) :
    undoLast s now = (false, "Undo window has expired.", s) := by
  unfold undoLast
  rw [h]

/-- C6 (amended): after a successful `undo_last` the last-action pointer is
cleared, so an immediate second `undo_last` fails — but with the message
"Undo window has expired." (the cleared pointer makes `can_undo` false),
not "Nothing to undo.". -/
theorem claim_C6_amended (s : Store) (t1 t2 : Int) (h : (undoLast s t1).1 = true) :
    (undoLast s t1).2.2.last_action = none ∧
    undoLast (undoLast s t1).2.2 t2 =
      (false, "Undo window has expired.", (undoLast s t1).2.2) :=
  ⟨undoLast_success_clears s t1 h, undoLast_none _ t2 (undoLast_success_clears s t1 h)⟩

/-- C2: `is_return_eligible` holds exactly when the order exists, its status
is "Delivered" or "Return Initiated", `return_eligible_until` is present and
parses as an ISO date, and `today` is not after it; missing order, missing
date, or parse failure all yield false. -/
theorem claim_C2 (o : Option Order) (today : Date) :
    is_return_eligible o today = true ↔
    (∃ ord r d, o = some ord ∧ (ord.status = "Delivered" ∨ ord.status = "Return Initiated") ∧
      ord.return_eligible_until = some r ∧ parseDate r = some d ∧ dateLe today d = true) := by
  cases o with
  | none => simp [is_return_eligible]
  | some ord =>
    unfold is_return_eligible
    dsimp only
    by_cases hst : ord.status = "Delivered" ∨ ord.status = "Return Initiated"
    · rw [if_neg (not_not_intro hst)]
      cases hdue : ord.return_eligible_until with
      | none => simp [hdue]
      | some due =>
        dsimp only
        by_cases h0 : due = ""
        · subst h0
          rw [if_pos rfl]
          have hpe : parseDate "" = none := rfl
          simp [hdue, hpe]
        · rw [if_neg h0]
          cases hp : parseDate due with
          | none => simp [hdue, hp]
          | some d => simp [hdue, hp, hst]
    · rw [if_pos hst]
      refine ⟨fun hft => absurd hft (by simp), ?_⟩
      rintro ⟨ord', r, d, heq, hst', -, -, -⟩
      rw [Option.some.injEq] at heq
      subst heq
      exact (hst hst').elim

/-- C5: a return on a Delivered order whose `return_eligible_until` parses
to a date strictly before `today` fails with the expiry-specific message and
leaves the store untouched. -/
theorem claim_C5 (s : Store) (oid : String) (o : Order) (today : Date) (now : Int)
    (r : String) (d : Date)
    (ho : getOrder s oid = some o) (hst : o.status = "Delivered")
    (hr : o.return_eligible_until = some r) (hp : parseDate r = some d)
    (hlt : dateLt d today = true) :
    start_return s oid today now =
      (false, "Return window has expired for **" ++ oid ++ "**.", s) := by
  have hne : r ≠ "" := by
    intro he
    subst he
    rw [show parseDate "" = none from rfl] at hp
    exact Option.noConfusion hp
  unfold start_return
  rw [ho]
  simp [hst, hr, hne, hp, hlt]

/-- C9 (implicit): on a Delivered order whose `return_eligible_until` is
missing or unparseable, `start_return` does not fail closed: it succeeds and
mutates the order to "Return Initiated" / "Pending Pickup", even though
`is_return_eligible` is false for that order. -/
theorem claim_C9 (s : Store) (oid : String) (o : Order) (today : Date) (now : Int)
    (ho : getOrder s oid = some o) (hst : o.status = "Delivered")
    (hbad : o.return_eligible_until = none ∨
            ∃ r, o.return_eligible_until = some r ∧ parseDate r = none) :
    (start_return s oid today now).1 = true ∧
    getOrder (start_return s oid today now).2.2 oid =
      some { o with status := "Return Initiated", refund_status := some "Pending Pickup" } ∧
    is_return_eligible (some o) today = false := by
  have hexp :
      (match o.return_eligible_until with
        | none => false
        | some r =>
          if r = "" then false
          else match parseDate r with
            | none => false
            | some due => dateLt due today) = false := by
    rcases hbad with hnone | ⟨r, hr, hp⟩
    · rw [hnone]
    · rw [hr]
      dsimp only
      by_cases h0 : r = ""
      · rw [if_pos h0]
      · rw [if_neg h0, hp]
  have helig : is_return_eligible (some o) today = false := by
    unfold is_return_eligible
    dsimp only
    rw [if_neg (not_not_intro (Or.inl hst))]
    rcases hbad with hnone | ⟨r, hr, hp⟩
    · rw [hnone]
    · rw [hr]
      dsimp only
      by_cases h0 : r = ""
      · rw [if_pos h0]
      · rw [if_neg h0, hp]
  refine ⟨?_, ?_, helig⟩
  · unfold start_return
    rw [ho]
    dsimp only
    rw [hst, if_pos rfl, hexp]
    simp only [Bool.false_eq_true, if_false]
  · unfold start_return
    rw [ho]
    dsimp only
    rw [hst, if_pos rfl, hexp]
    simp only [Bool.false_eq_true, if_false]
    unfold pushAction getOrder setRefundStatus setStatus
    dsimp only
    rw [alookup_aupdate_self, alookup_aupdate_self]
    unfold getOrder at ho
    rw [ho]
    rfl

theorem claim_C1_witness :
    (undoLast (cancel_order sampleStore "ORD10074" 0).2.2 100).1 = true ∧
    getOrder (undoLast (cancel_order sampleStore "ORD10074" 0).2.2 100).2.2 "ORD10074" =
      some sampleProcessing ∧
    (undoLast (cancel_order sampleStore "ORD10074" 0).2.2 100).2.2.last_action = none :=
  claim_C1 sampleStore "ORD10074" sampleProcessing 0 100 rfl rfl (by decide) rfl (by decide)

theorem claim_C2_witness :
    is_return_eligible (some sampleDelivered) ⟨2026, 10, 12⟩ = true :=
  (claim_C2 (some sampleDelivered) ⟨2026, 10, 12⟩).mpr
    ⟨sampleDelivered, "2026-10-19", ⟨2026, 10, 19⟩, rfl, Or.inl rfl, rfl, by decide, by decide⟩

theorem claim_C3_witness :
    ((cancel_order sampleStore "ORD99999" 0).1 = false ∧
      (cancel_order sampleStore "ORD99999" 0).2.2 = sampleStore) ∧
    ((start_return sampleStore "ORD99999" ⟨2026, 10, 12⟩ 0).1 = false ∧
      (start_return sampleStore "ORD99999" ⟨2026, 10, 12⟩ 0).2.2 = sampleStore) ∧
    ((change_address sampleStore "ORD99999" "1 New Lane" 0).1 = false ∧
      (change_address sampleStore "ORD99999" "1 New Lane" 0).2.2 = sampleStore) :=
  ⟨⟨rfl, (claim_C3 sampleStore "ORD99999" "1 New Lane" ⟨2026, 10, 12⟩ 0).1 rfl⟩,
   ⟨rfl, (claim_C3 sampleStore "ORD99999" "1 New Lane" ⟨2026, 10, 12⟩ 0).2.1 rfl⟩,
   ⟨rfl, (claim_C3 sampleStore "ORD99999" "1 New Lane" ⟨2026, 10, 12⟩ 0).2.2 rfl⟩⟩

theorem claim_C5_witness :
    start_return sampleStore "ORD10071" ⟨2026, 10, 25⟩ 0 =
      (false, "Return window has expired for **ORD10071**.", sampleStore) :=
  claim_C5 sampleStore "ORD10071" sampleDelivered ⟨2026, 10, 25⟩ 0 "2026-10-19"
    ⟨2026, 10, 19⟩ rfl rfl rfl (by decide) (by decide)

theorem claim_C6_amended_witness :
    (undoLast (cancel_order sampleStore "ORD10074" 0).2.2 5).1 = true ∧
    ((undoLast (cancel_order sampleStore "ORD10074" 0).2.2 5).2.2.last_action = none ∧
      undoLast (undoLast (cancel_order sampleStore "ORD10074" 0).2.2 5).2.2 9 =
        (false, "Undo window has expired.",
          (undoLast (cancel_order sampleStore "ORD10074" 0).2.2 5).2.2)) :=
  ⟨rfl, claim_C6_amended (cancel_order sampleStore "ORD10074" 0).2.2 5 9 rfl⟩

/-- C6 counterexample: after cancelling ORD10074 and undoing at once, a second
immediate undo fails with "Undo window has expired.", which is not the
"nothing to undo" message the claim states. -/
theorem claim_C6_counterexample :
    (undoLast (cancel_order sampleStore "ORD10074" 0).2.2 5).1 = true ∧
    (undoLast (undoLast (cancel_order sampleStore "ORD10074" 0).2.2 5).2.2 9).1 = false ∧
    (undoLast (undoLast (cancel_order sampleStore "ORD10074" 0).2.2 5).2.2 9).2.1 =
      "Undo window has expired." ∧
    "Undo window has expired." ≠ "Nothing to undo." ∧
    "Undo window has expired." ≠ "nothing to undo" :=
  ⟨rfl, rfl, rfl, by decide, by decide⟩

def sampleDeliveredNoRet : Order :=
  ⟨"ORD20001", "Delivered", ["Desk Lamp"], "9876543210", some "Ekart", some "EKT90001",
   some "2026-10-01", some "2026-10-04", some "2026-10-04", none,
   "4 Ring Road, Indore", "2026-09-29", none⟩

def sampleStoreNoRet : Store := ⟨[("ORD20001", sampleDeliveredNoRet)], [], none, 0, 300⟩

theorem claim_C9_witness :
    (start_return sampleStoreNoRet "ORD20001" ⟨2026, 10, 12⟩ 0).1 = true ∧
    getOrder (start_return sampleStoreNoRet "ORD20001" ⟨2026, 10, 12⟩ 0).2.2 "ORD20001" =
      some { sampleDeliveredNoRet with
               status := "Return Initiated", refund_status := some "Pending Pickup" } ∧
    is_return_eligible (some sampleDeliveredNoRet) ⟨2026, 10, 12⟩ = false :=
  claim_C9 sampleStoreNoRet "ORD20001" sampleDeliveredNoRet ⟨2026, 10, 12⟩ 0 rfl rfl
    (Or.inl rfl)

theorem toLower_idem (c : Char) : (Char.toLower c).toLower = Char.toLower c := by
  have hb : ∀ n : Nat, n < 91 → 65 ≤ n → (Char.ofNat (n + 32)).toNat = n + 32 := by decide
  unfold Char.toLower
  by_cases h : 65 ≤ c.toNat ∧ c.toNat ≤ 90
  · rw [if_pos h]
    have ht : (Char.ofNat (c.toNat + 32)).toNat = c.toNat + 32 :=
      hb c.toNat (Nat.lt_succ_of_le h.2) h.1
    rw [if_neg]
    rw [ht]
    omega
  · rw [if_neg h, if_neg h]

theorem lowerStr_idem (s : String) : lowerStr (lowerStr s) = lowerStr s := by
  have hcomp : Char.toLower ∘ Char.toLower = Char.toLower := funext toLower_idem
  simp [lowerStr, List.map_map, hcomp]

theorem neg_cancel_lowerStr (t : String) : neg_cancel (lowerStr t) = neg_cancel t := by
  unfold neg_cancel
  rw [lowerStr_idem]

/-- C4: whenever the user text matches a negated-cancel pattern, the plan
returned by `ai_plan` has intent "keep_order" and contains "general_chat" in
its actions, regardless of the model call's outcome (fallback, unparseable
reply, or any parsed plan object). -/
theorem claim_C4 (text : String) (active_oid : Option String) (has_orders : Bool)
    (m : ModelOut) (h : neg_cancel text = true) :
    (ai_plan text active_oid has_orders m).intent = "keep_order" ∧
    "general_chat" ∈ (ai_plan text active_oid has_orders m).actions := by
  have hfb : fallback_intent text = "keep_order" := by
    simp [fallback_intent, neg_cancel_lowerStr, h]
  cases m with
  | noClient => exact ⟨hfb, by simp [ai_plan]⟩
  | noParse =>
    unfold ai_plan finalizePlan
    rw [h]
    simp
  | parsed p =>
    unfold ai_plan finalizePlan
    rw [h]
    dsimp only
    refine ⟨rfl, ?_⟩
    by_cases hm : "general_chat" ∈ p.actions.getD []
    · simp [hm]
    · simp [hm]

/-- C10 (implicit): with no usable model client, or a model reply yielding no
parseable JSON object, the plan's actions list is exactly ["general_chat"],
whatever the keyword-derived intent is — so the dispatcher runs no
order-specific action in fallback mode. -/
theorem claim_C10 (text : String) (active_oid : Option String) (has_orders : Bool) :
    (ai_plan text active_oid has_orders ModelOut.noClient).actions = ["general_chat"] ∧
    (ai_plan text active_oid has_orders ModelOut.noParse).actions = ["general_chat"] := by
  refine ⟨rfl, ?_⟩
  unfold ai_plan finalizePlan
  by_cases h : neg_cancel text
  · simp [h]
  · simp [h]

theorem claim_C4_witness :
    neg_cancel "please don\x27t cancel my order" = true ∧
    ((ai_plan "please don\x27t cancel my order" none true
        (ModelOut.parsed { intent := some "cancel", actions := some ["cancel_order"] })).intent =
      "keep_order" ∧
     "general_chat" ∈ (ai_plan "please don\x27t cancel my order" none true
        (ModelOut.parsed { intent := some "cancel", actions := some ["cancel_order"] })).actions) :=
  ⟨by decide,
   claim_C4 "please don\x27t cancel my order" none true
     (ModelOut.parsed { intent := some "cancel", actions := some ["cancel_order"] }) (by decide)⟩

def avgOrderA : Order :=
  ⟨"ORDA", "Delivered", ["Widget"], "9876543210", some "BlueDart", some "T1",
   some "2023-01-01", some "2023-01-03", some "2023-01-03", some "2023-01-13",
   "1 First Street", "2022-12-30", none⟩

def avgOrderB : Order :=
  ⟨"ORDB", "Delivered", ["Gadget"], "9876543210", some "Delhivery", some "T2",
   some "2023-01-01", some "2023-01-05", some "2023-01-05", some "2023-01-15",
   "2 Second Street", "2022-12-30", none⟩

def avgStore : Store := ⟨[("ORDA", avgOrderA), ("ORDB", avgOrderB)], [], none, 0, 300⟩

/-- C7 counterexample: on the two-order store shipped 2023-01-01 and
delivered 2023-01-03 / 2023-01-05, `compute_avg_delivery_days` returns
average 3.0 (sample count 2), not the claimed 4.0. -/
theorem claim_C7_counterexample :
    compute_avg_delivery_days avgStore none none = (some 3, 2) ∧
    compute_avg_delivery_days avgStore none none ≠ (some 4, 2) := by
  have p1 : parse_date_opt (some "2023-01-01") = some ⟨2023, 1, 1⟩ := by decide
  have p3 : parse_date_opt (some "2023-01-03") = some ⟨2023, 1, 3⟩ := by decide
  have p5 : parse_date_opt (some "2023-01-05") = some ⟨2023, 1, 5⟩ := by decide
  have le3 : dateLe ⟨2023, 1, 1⟩ ⟨2023, 1, 3⟩ = true := by decide
  have le5 : dateLe ⟨2023, 1, 1⟩ ⟨2023, 1, 5⟩ = true := by decide
  have d3 : dateDiffDays ⟨2023, 1, 3⟩ ⟨2023, 1, 1⟩ = 2 := by decide
  have d5 : dateDiffDays ⟨2023, 1, 5⟩ ⟨2023, 1, 1⟩ = 4 := by decide
  have key : compute_avg_delivery_days avgStore none none = (some 3, 2) := by
    unfold compute_avg_delivery_days avgStore avgOrderA avgOrderB
    simp only [List.filterMap_cons, List.filterMap_nil]
    rw [p1, p3, p5]
    simp only [optTruthy, Bool.false_and, Bool.if_false_left]
    norm_num [le3, le5, d3, d5]
  refine ⟨key, ?_⟩
  rw [key]
  intro hc
  have h1 := congrArg Prod.fst hc
  simp at h1

/-- C7 (amended): on any store holding exactly two Delivered orders shipped
2023-01-01 and delivered 2023-01-03 and 2023-01-05, the unfiltered average
delivery time is 3.0 with sample count 2. -/
theorem claim_C7_amended (o1 o2 : Order) (s : Store)
    (h1s : o1.status = "Delivered") (h1a : o1.ship_date = some "2023-01-01")
    (h1b : o1.delivered_date = some "2023-01-03")
    (h2s : o2.status = "Delivered") (h2a : o2.ship_date = some "2023-01-01")
    (h2b : o2.delivered_date = some "2023-01-05")
    (hs : s.orders = [("ORDA", o1), ("ORDB", o2)]) :
    compute_avg_delivery_days s none none = (some 3, 2) := by
  have p1 : parse_date_opt (some "2023-01-01") = some ⟨2023, 1, 1⟩ := by decide
  have p3 : parse_date_opt (some "2023-01-03") = some ⟨2023, 1, 3⟩ := by decide
  have p5 : parse_date_opt (some "2023-01-05") = some ⟨2023, 1, 5⟩ := by decide
  have le3 : dateLe ⟨2023, 1, 1⟩ ⟨2023, 1, 3⟩ = true := by decide
  have le5 : dateLe ⟨2023, 1, 1⟩ ⟨2023, 1, 5⟩ = true := by decide
  have d3 : dateDiffDays ⟨2023, 1, 3⟩ ⟨2023, 1, 1⟩ = 2 := by decide
  have d5 : dateDiffDays ⟨2023, 1, 5⟩ ⟨2023, 1, 1⟩ = 4 := by decide
  unfold compute_avg_delivery_days
  rw [hs]
  simp only [List.filterMap_cons, List.filterMap_nil]
  rw [h1s, h2s, h1a, h2a, h1b, h2b, p1, p3, p5]
  simp only [optTruthy, Bool.false_and, Bool.if_false_left]
  norm_num [le3, le5, d3, d5]

theorem claim_C7_amended_witness :
    compute_avg_delivery_days avgStore none none = (some 3, 2) :=
  claim_C7_amended avgOrderA avgOrderB avgStore rfl rfl rfl rfl rfl rfl rfl

theorem one_le_daysInMonth (y m : Nat) : 1 ≤ daysInMonth y m := by
  unfold daysInMonth
  split_ifs <;> omega

theorem daysInMonth_le_31 (y m : Nat) : daysInMonth y m ≤ 31 := by
  unfold daysInMonth
  split_ifs <;> omega

theorem daysInMonth_twelve (y : Nat) : daysInMonth y 12 = 31 := rfl

theorem daysInMonth_one (y : Nat) : daysInMonth y 1 = 31 := rfl

theorem prevDay_valid (d : Date) (hv : DateValid d) (hy : 2 ≤ d.year) :
    DateValid (prevDay d) ∧ d.year - 1 ≤ (prevDay d).year ∧ (prevDay d).year ≤ d.year := by
  obtain ⟨y, m, dy⟩ := d
  obtain ⟨h1, h2, h3, h4, h5⟩ := hv
  dsimp only at h1 h2 h3 h4 h5 hy
  unfold prevDay
  dsimp only
  by_cases hd : 1 < dy
  · rw [if_pos hd]
    refine ⟨⟨?_, ?_, ?_, ?_, ?_⟩, ?_, ?_⟩ <;> dsimp only <;> omega
  · rw [if_neg hd]
    by_cases hm : 1 < m
    · rw [if_pos hm]
      have hdim := one_le_daysInMonth y (m - 1)
      refine ⟨⟨?_, ?_, ?_, ?_, ?_⟩, ?_, ?_⟩ <;> dsimp only <;> omega
    · rw [if_neg hm]
      have h31 := daysInMonth_twelve (y - 1)
      refine ⟨⟨?_, ?_, ?_, ?_, ?_⟩, ?_, ?_⟩ <;> dsimp only <;> omega

theorem nextDay_valid (d : Date) (hv : DateValid d) :
    DateValid (nextDay d) ∧ (nextDay d).year ≤ d.year + 1 := by
  obtain ⟨y, m, dy⟩ := d
  obtain ⟨h1, h2, h3, h4, h5⟩ := hv
  dsimp only at h1 h2 h3 h4 h5
  unfold nextDay
  dsimp only
  by_cases hlt : dy < daysInMonth y m
  · rw [if_pos hlt]
    refine ⟨⟨?_, ?_, ?_, ?_, ?_⟩, ?_⟩ <;> dsimp only <;> omega
  · rw [if_neg hlt]
    by_cases hm : m < 12
    · rw [if_pos hm]
      have hdim := one_le_daysInMonth y (m + 1)
      refine ⟨⟨?_, ?_, ?_, ?_, ?_⟩, ?_⟩ <;> dsimp only <;> omega
    · rw [if_neg hm]
      have h31 := daysInMonth_one (y + 1)
      refine ⟨⟨?_, ?_, ?_, ?_, ?_⟩, ?_⟩ <;> dsimp only <;> omega

theorem nextDay_prevDay (d : Date) (hv : DateValid d) (hy : 2 ≤ d.year) :
    nextDay (prevDay d) = d := by
  obtain ⟨y, m, dy⟩ := d
  obtain ⟨h1, h2, h3, h4, h5⟩ := hv
  dsimp only at h1 h2 h3 h4 h5 hy
  unfold prevDay
  dsimp only
  by_cases hd : 1 < dy
  · rw [if_pos hd]
    unfold nextDay
    dsimp only
    rw [if_pos (by omega : dy - 1 < daysInMonth y m)]
    have he : dy - 1 + 1 = dy := by omega
    rw [he]
  · rw [if_neg hd]
    by_cases hm : 1 < m
    · rw [if_pos hm]
      unfold nextDay
      dsimp only
      rw [if_neg (lt_irrefl _), if_pos (by omega : m - 1 < 12)]
      have hm1 : m - 1 + 1 = m := by omega
      have hd1 : dy = 1 := by omega
      rw [hm1, hd1]
    · rw [if_neg hm]
      unfold nextDay
      dsimp only
      rw [daysInMonth_twelve]
      rw [if_neg (lt_irrefl _), if_neg (lt_irrefl _)]
      have hyy : y - 1 + 1 = y := by omega
      have hm1 : m = 1 := by omega
      have hd1 : dy = 1 := by omega
      rw [hyy, hm1, hd1]

theorem subDays_valid : ∀ (k : Nat) (d : Date), DateValid d → k + 1 ≤ d.year →
    DateValid (subDays d k) ∧ d.year - k ≤ (subDays d k).year ∧ (subDays d k).year ≤ d.year := by
  intro k
  induction k with
  | zero =>
    intro d hv _
    simp only [subDays]
    exact ⟨hv, by omega, by omega⟩
  | succ k ih =>
    intro d hv hy
    have hk := ih d hv (by omega)
    have hp := prevDay_valid (subDays d k) hk.1 (by omega)
    simp only [subDays]
    exact ⟨hp.1, by omega, by omega⟩

theorem addDays_valid : ∀ (k : Nat) (d : Date), DateValid d →
    DateValid (addDays d k) ∧ (addDays d k).year ≤ d.year + k := by
  intro k
  induction k with
  | zero =>
    intro d hv
    simp only [addDays]
    exact ⟨hv, by omega⟩
  | succ k ih =>
    intro d hv
    have hn := nextDay_valid d hv
    have hk := ih (nextDay d) hn.1
    simp only [addDays]
    exact ⟨hk.1, by omega⟩

theorem addDays_subDays_cancel : ∀ (k : Nat) (d : Date), DateValid d → k + 1 ≤ d.year →
    addDays (subDays d k) k = d := by
  intro k
  induction k with
  | zero => exact fun d _ _ => rfl
  | succ k ih =>
    intro d hv hy
    have hsub := subDays_valid k d hv (by omega)
    simp only [subDays, addDays]
    rw [nextDay_prevDay (subDays d k) hsub.1 (by omega)]
    exact ih d hv (by omega)

theorem addDays_add (a : Nat) : ∀ (b : Nat) (d : Date),
    addDays d (a + b) = addDays (addDays d a) b := by
  induction a with
  | zero =>
    intro b d
    rw [Nat.zero_add]
    rfl
  | succ a ih =>
    intro b d
    have hc : (a + 1) + b = (a + b) + 1 := by omega
    rw [hc]
    simp only [addDays]
    exact ih b (nextDay d)

theorem parseDate_isoDate (d : Date) (hv : DateValid d) (hy : d.year ≤ 9999) :
    parseDate (isoDate d) = some d := by
  obtain ⟨y, m, dy⟩ := d
  obtain ⟨h1, h2, h3, h4, h5⟩ := hv
  dsimp only at h1 h2 h3 h4 h5 hy
  have hd : ∀ r : Nat, r < 10 → ((digitChar r).isDigit = true ∧ digitVal (digitChar r) = r) := by
    decide
  have e1 := hd (y / 1000 % 10) (by omega)
  have e2 := hd (y / 100 % 10) (by omega)
  have e3 := hd (y / 10 % 10) (by omega)
  have e4 := hd (y % 10) (by omega)
  have e5 := hd (m / 10 % 10) (by omega)
  have e6 := hd (m % 10) (by omega)
  have e7 := hd (dy / 10 % 10) (by omega)
  have e8 := hd (dy % 10) (by omega)
  unfold isoDate parseDate pad4 pad2
  dsimp only
  simp only [List.cons_append, List.nil_append]
  simp only [e1.1, e2.1, e3.1, e4.1, e5.1, e6.1, e7.1, e8.1, beq_self_eq_true,
    Bool.and_true, Bool.true_and, if_true]
  simp only [e1.2, e2.2, e3.2, e4.2, e5.2, e6.2, e7.2, e8.2]
  have hyv : y / 1000 % 10 * 1000 + y / 100 % 10 * 100 + y / 10 % 10 * 10 + y % 10 = y := by
    omega
  have hmv : m / 10 % 10 * 10 + m % 10 = m := by omega
  have hdim31 := daysInMonth_le_31 y m
  have hdv : dy / 10 % 10 * 10 + dy % 10 = dy := by omega
  rw [hyv, hmv, hdv]
  rw [if_pos ⟨h1, h2, h3, h4, h5⟩]

/-- The claimed seed invariant for one order: if `return_eligible_until` is
present, then `delivered_date` is present, both parse, and the return date
is exactly `delivered_date` plus 10 days. -/
def ret_plus10 (o : Order) : Bool :=
  match o.return_eligible_until with
  | none => true
  | some r =>
    match o.delivered_date with
    | none => false
    | some dd =>
      match parseDate r, parseDate dd with
      | some rd, some dv => decide (rd = addDays dv 10)
      | _, _ => false

/-- C8 counterexample: in the store seeded on 2026-10-12, not every order
with a `return_eligible_until` has it equal to `delivered_date` + 10 days:
ORD10076 (delivered today-9, returnable until today-2, a 7-day window)
violates the invariant. -/
theorem claim_C8_counterexample :
    ((Store.init ⟨2026, 10, 12⟩).orders.all (fun p => ret_plus10 p.2)) = false ∧
    (getOrder (Store.init ⟨2026, 10, 12⟩) "ORD10076").map ret_plus10 = some false := by
  constructor
  · decide
  · decide

/-- C8 (amended): for every seeding date (any valid date from year 6 through
9990, covering every date the program can run on) and every seeded order
other than ORD10076, a present `return_eligible_until` equals
`delivered_date` plus exactly 10 days. -/
theorem claim_C8_amended (today : Date) (oid : String)
    (hv : DateValid today) (hy1 : 6 ≤ today.year) (hy2 : today.year ≤ 9990)
    (hoid : oid ≠ "ORD10076") :
    ((getOrder (Store.init today) oid).map ret_plus10).getD true = true := by
  have hs2 := subDays_valid 2 today hv (by omega)
  have hs3 := subDays_valid 3 today hv (by omega)
  have hs4 := subDays_valid 4 today hv (by omega)
  have ha6 := addDays_valid 6 today hv
  have ha7 := addDays_valid 7 today hv
  have ha8 := addDays_valid 8 today hv
  have hp2 : parseDate (isoDate (subDays today 2)) = some (subDays today 2) :=
    parseDate_isoDate _ hs2.1 (by omega)
  have hp3 : parseDate (isoDate (subDays today 3)) = some (subDays today 3) :=
    parseDate_isoDate _ hs3.1 (by omega)
  have hp4 : parseDate (isoDate (subDays today 4)) = some (subDays today 4) :=
    parseDate_isoDate _ hs4.1 (by omega)
  have hq6 : parseDate (isoDate (addDays today 6)) = some (addDays today 6) :=
    parseDate_isoDate _ ha6.1 (by omega)
  have hq7 : parseDate (isoDate (addDays today 7)) = some (addDays today 7) :=
    parseDate_isoDate _ ha7.1 (by omega)
  have hq8 : parseDate (isoDate (addDays today 8)) = some (addDays today 8) :=
    parseDate_isoDate _ ha8.1 (by omega)
  have hc37 : addDays (subDays today 3) 10 = addDays today 7 := by
    have hh := addDays_add 3 7 (subDays today 3)
    norm_num at hh
    rw [hh, addDays_subDays_cancel 3 today hv (by omega)]
  have hc46 : addDays (subDays today 4) 10 = addDays today 6 := by
    have hh := addDays_add 4 6 (subDays today 4)
    norm_num at hh
    rw [hh, addDays_subDays_cancel 4 today hv (by omega)]
  have hc28 : addDays (subDays today 2) 10 = addDays today 8 := by
    have hh := addDays_add 2 8 (subDays today 2)
    norm_num at hh
    rw [hh, addDays_subDays_cancel 2 today hv (by omega)]
  unfold Store.init seed_demo getOrder
  dsimp only
  simp only [alookup]
  by_cases c1 : "ORD10071" = oid
  · subst c1
    simp only [reduceIte]
    unfold ret_plus10
    simp [hq7, hp3, hc37]
  rw [if_neg c1]
  by_cases c2 : "ORD10072" = oid
  · subst c2
    simp only [reduceIte]
    rfl
  rw [if_neg c2]
  by_cases c3 : "ORD10073" = oid
  · subst c3
    simp only [reduceIte]
    rfl
  rw [if_neg c3]
  by_cases c4 : "ORD10074" = oid
  · subst c4
    simp only [reduceIte]
    rfl
  rw [if_neg c4]
  by_cases c5 : "ORD10075" = oid
  · subst c5
    simp only [reduceIte]
    unfold ret_plus10
    simp [hq6, hp4, hc46]
  rw [if_neg c5]
  by_cases c6 : "ORD10076" = oid
  · exact absurd c6.symm hoid
  rw [if_neg c6]
  by_cases c7 : "ORD10077" = oid
  · subst c7
    simp only [reduceIte]
    unfold ret_plus10
    simp [hq8, hp2, hc28]
  rw [if_neg c7]
  by_cases c8 : "ORD10078" = oid
  · subst c8
    simp only [reduceIte]
    rfl
  rw [if_neg c8]
  by_cases c9 : "ORD10079" = oid
  · subst c9
    simp only [reduceIte]
    rfl
  rw [if_neg c9]
  rfl

theorem claim_C8_amended_witness :
    ((getOrder (Store.init ⟨2026, 10, 12⟩) "ORD10071").map ret_plus10).getD true = true :=
  claim_C8_amended ⟨2026, 10, 12⟩ "ORD10071" (by decide) (by decide) (by decide) (by decide)
